import Mathlib

set_option maxRecDepth 4000

/-!
Shallow embedding of the HypeSwipe core subsystems:
  - `src/frontend/store/userStore.ts` (approval state machine),
  - `src/frontend/lib/lifi.ts` (Bitcoin script decoder, PSBT parser, quote normalizer),
  - `src/frontend/lib/pear-api.ts` (authenticated HTTP client with refresh and retry).
External collaborators (the network `fetch`, the `@scure/btc-signer` PSBT parser,
the token-refresh endpoint) are modelled as explicit oracle parameters, and the
mutable zustand session store as explicit state threading.
Bytes are modelled as `Nat` (each element of a `Uint8Array` is `< 256`).
-/

/- ### JS string truthiness: `null`/`undefined` and `""` are falsy -/

def truthy : Option String → Bool
  | none => false
  | some s => !(s == "")

/- ### userStore.ts : getAuthStatus (lines 60-75) -/

inductive AuthStatus
  | not_connected
  | connected
  | authenticated
  | ready_to_trade
deriving DecidableEq, Repr

/-- The slice of the zustand user store read by `getAuthStatus`. -/
structure UserState where
  pearAccessToken : Option String
  builderCodeApproved : Bool
  agentWalletApproved : Bool
deriving DecidableEq, Repr

/-- userStore.ts lines 60-75: `getAuthStatus(isWalletConnected)`. -/
def getAuthStatus (isWalletConnected : Bool) (state : UserState) : AuthStatus :=
  if !isWalletConnected then .not_connected
  else if !truthy state.pearAccessToken then .connected
  else if !state.builderCodeApproved then .authenticated
  else if !state.agentWalletApproved then .authenticated
  else .ready_to_trade

/- ### lifi.ts : Bitcoin script decoding (lines 445-557) -/

/-- lifi.ts lines 445-447: `script.length > 0 && script[0] === 0x6a`. -/
def isOpReturnScript : List Nat → Bool
  | [] => false
  | b :: _ => b == 0x6a

/-- The byte classes counted by `isLikelyUtf8Text`: printable ASCII
    (space to tilde) plus tab, LF and CR. -/
def isPrintableByte (b : Nat) : Bool :=
  (decide (0x20 ≤ b) && decide (b ≤ 0x7e)) || b == 0x09 || b == 0x0a || b == 0x0d

def printableCount (data : List Nat) : Nat :=
  (data.filter isPrintableByte).length

/-- lifi.ts lines 452-469. The source compares `printableCount / data.length > 0.7`
    with float division; for integer counts with `0 ≤ printableCount ≤ data.length`
    this is exactly equivalent to the rational comparison `10*count > 7*length`
    (the two sides never fall inside one rounding error of each other). -/
def isLikelyUtf8Text (data : List Nat) : Bool :=
  decide (0 < data.length) && decide (7 * data.length < 10 * printableCount data)

/-- Lowercase hex digit of a nibble, as produced by `hex.encode` of @scure/base. -/
def hexDigit (n : Nat) : Char :=
  if n < 10 then Char.ofNat (48 + n) else Char.ofNat (87 + n)

/-- `hex.encode` of @scure/base: two lowercase hex digits per byte. -/
def hexEncode (data : List Nat) : String :=
  String.mk ((data.map (fun b => [hexDigit (b / 16), hexDigit (b % 16)])).flatten)

/-- A UTF-8 continuation byte (0x80-0xbf). -/
def contOK (b : Nat) : Bool := decide (0x80 ≤ b) && decide (b ≤ 0xbf)

/-- The replacement character U+FFFD emitted by a non-fatal `TextDecoder`. -/
def replChar : Char := Char.ofNat 0xfffd

/-- WHATWG UTF-8 decoding with replacement, as performed by
    `new TextDecoder().decode` (non-fatal is the default): on a malformed or
    truncated sequence one U+FFFD is emitted and decoding resumes at the first
    byte that did not fit the sequence. -/
def utf8Lenient : List Nat → List Char
  | [] => []
  | b :: rest =>
    if b < 0x80 then Char.ofNat b :: utf8Lenient rest
    else if decide (0xc2 ≤ b) && decide (b ≤ 0xdf) then
      match rest with
      | [] => [replChar]
      | c1 :: rest1 =>
        if contOK c1 then
          Char.ofNat ((b - 0xc0) * 64 + (c1 - 0x80)) :: utf8Lenient rest1
        else replChar :: utf8Lenient (c1 :: rest1)
    else if decide (0xe0 ≤ b) && decide (b ≤ 0xef) then
      match rest with
      | [] => [replChar]
      | c1 :: rest1 =>
        if (decide ((if b == 0xe0 then 0xa0 else 0x80) ≤ c1) &&
            decide (c1 ≤ (if b == 0xed then 0x9f else 0xbf))) then
          match rest1 with
          | [] => [replChar]
          | c2 :: rest2 =>
            if contOK c2 then
              Char.ofNat ((b - 0xe0) * 4096 + (c1 - 0x80) * 64 + (c2 - 0x80)) ::
                utf8Lenient rest2
            else replChar :: utf8Lenient (c2 :: rest2)
        else replChar :: utf8Lenient (c1 :: rest1)
    else if decide (0xf0 ≤ b) && decide (b ≤ 0xf4) then
      match rest with
      | [] => [replChar]
      | c1 :: rest1 =>
        if (decide ((if b == 0xf0 then 0x90 else 0x80) ≤ c1) &&
            decide (c1 ≤ (if b == 0xf4 then 0x8f else 0xbf))) then
          match rest1 with
          | [] => [replChar]
          | c2 :: rest2 =>
            if contOK c2 then
              match rest2 with
              | [] => [replChar]
              | c3 :: rest3 =>
                if contOK c3 then
                  Char.ofNat ((b - 0xf0) * 262144 + (c1 - 0x80) * 4096 +
                    (c2 - 0x80) * 64 + (c3 - 0x80)) :: utf8Lenient rest3
                else replChar :: utf8Lenient (c3 :: rest3)
            else replChar :: utf8Lenient (c2 :: rest2)
        else replChar :: utf8Lenient (c1 :: rest1)
    else replChar :: utf8Lenient rest
termination_by l => l.length
decreasing_by all_goals simp [List.length_cons] <;> omega

def isAsciiAlnum (c : Char) : Bool :=
  (decide ('a' ≤ c) && decide (c ≤ 'z')) ||
  (decide ('A' ≤ c) && decide (c ≤ 'Z')) ||
  (decide ('0' ≤ c) && decide (c ≤ '9'))

/-- Match `lifi[a-zA-Z0-9]+` anchored at the head of the character list. -/
def matchLifiAt (cs : List Char) : Option (List Char) :=
  match cs with
  | 'l' :: 'i' :: 'f' :: 'i' :: rest =>
    let run := rest.takeWhile isAsciiAlnum
    if run.isEmpty then none else some ('l' :: 'i' :: 'f' :: 'i' :: run)
  | _ => none

/-- Match the regex `[=|]?lifi[a-zA-Z0-9]+` anchored at the head: the greedy
    optional `[=|]` is tried first and backtracked if `lifi...` does not follow. -/
def matchTrackAt (cs : List Char) : Option (List Char) :=
  match cs with
  | [] => none
  | c :: rest =>
    if c == '=' || c == '|' then
      match matchLifiAt rest with
      | some m => some (c :: m)
      | none => matchLifiAt (c :: rest)
    else matchLifiAt (c :: rest)

/-- `String.prototype.match` with `/[=|]?lifi[a-zA-Z0-9]+/`: the leftmost match. -/
def findLifiTracking : List Char → Option (List Char)
  | [] => none
  | c :: rest =>
    match matchTrackAt (c :: rest) with
    | some m => some m
    | none => findLifiTracking rest

/-- lifi.ts lines 531-552: classification of the extracted memo slice.
    Text-like data is decoded as UTF-8; binary data is rendered as 0x-hex,
    with a ` (tracking: ...)` suffix when the lenient UTF-8 decoding of the
    same bytes matches `/[=|]?lifi[a-zA-Z0-9]+/`. -/
def renderMemoData (data : List Nat) : String :=
  if isLikelyUtf8Text data then
    String.mk (utf8Lenient data)
  else
    match findLifiTracking (utf8Lenient data) with
    | some m => "0x" ++ hexEncode data ++ " (tracking: " ++ String.mk m ++ ")"
    | none => "0x" ++ hexEncode data

/-- `Uint8Array.prototype.slice(s, e)` where `s` is a nonnegative index already
    in range and `e` may be negative (JS counts a negative end from the end of
    the array and clamps). -/
def jsSliceEnd (l : List Nat) (s : Nat) (e : Int) : List Nat :=
  let len : Int := l.length
  let e' : Int := if e < 0 then max (len + e) 0 else min e len
  (l.take e'.toNat).drop s

/-- lifi.ts lines 523-529: extract the declared slice, taking whatever bytes
    remain when the declared length exceeds the remaining buffer.
    `dataLength` is an `Int` because the OP_PUSHDATA4 length is computed with
    JS 32-bit signed bitwise arithmetic and can be negative. -/
def sliceData (script : List Nat) (offset : Nat) (dataLength : Int) : List Nat :=
  if (offset : Int) + dataLength > (script.length : Int) then script.drop offset
  else jsSliceEnd script offset ((offset : Int) + dataLength)

/-- lifi.ts lines 480-557: `extractOpReturnMemo`. The body's try/catch is dead
    in this model because every operation it performs is total. -/
def extractOpReturnMemo (script : List Nat) : Option String :=
  if !isOpReturnScript script then none
  else if decide (1 ≥ script.length) then none
  else
    let pushOpcode := script.getD 1 0
    if pushOpcode ≤ 0x4b then
      some (renderMemoData (sliceData script 2 (pushOpcode : Int)))
    else if pushOpcode == 0x4c then
      if decide (2 ≥ script.length) then none
      else some (renderMemoData (sliceData script 3 (script.getD 2 0 : Int)))
    else if pushOpcode == 0x4d then
      if decide (2 + 1 ≥ script.length) then none
      else
        some (renderMemoData (sliceData script 4
          ((script.getD 2 0 + script.getD 3 0 * 256 : Nat) : Int)))
    else if pushOpcode == 0x4e then
      if decide (2 + 3 ≥ script.length) then none
      else
        let raw : Nat := script.getD 2 0 + script.getD 3 0 * 256 +
          script.getD 4 0 * 65536 + script.getD 5 0 * 16777216
        let dataLength : Int :=
          if script.getD 5 0 ≥ 0x80 then (raw : Int) - 4294967296 else (raw : Int)
        some (renderMemoData (sliceData script 6 dataLength))
    else
      some ("0x" ++ hexEncode (script.drop 1))

/- ### lifi.ts : decodePsbt (lines 571-650) -/

/-- One output of a transaction parsed by `@scure/btc-signer`
    (`tx.getOutput(i)`): the locking script and the amount may be absent. -/
structure ScureOutput where
  script : Option (List Nat)
  amount : Option Nat
deriving DecidableEq, Repr

deriving instance DecidableEq for Except
deriving instance Repr for Except

/-- The result of `Transaction.fromPSBT` as consumed by `decodePsbt`:
    the outputs, and the bytes `tx.toBytes()` yields (or the exception it
    throws).  `Transaction.fromPSBT` itself is an external library routine and
    is passed to `decodePsbt` as an oracle. -/
structure ScureTx where
  outputs : List ScureOutput
  txBytes : Except String (List Nat)
deriving DecidableEq, Repr

structure PsbtOutputInfo where
  index : Nat
  address : Option String
  amount : Nat
  isOpReturn : Bool
  script : String
deriving DecidableEq, Repr

structure ParsedPsbtData where
  depositAddress : Option String
  depositAmount : Nat
  memo : Option String
  refundAddress : Option String
  refundAmount : Nat
  outputs : List PsbtOutputInfo
  rawTxHex : String
deriving DecidableEq, Repr

def hexCharVal (c : Char) : Option Nat :=
  if decide ('0' ≤ c) && decide (c ≤ '9') then some (c.toNat - 48)
  else if decide ('a' ≤ c) && decide (c ≤ 'f') then some (c.toNat - 87)
  else none

/-- `hex.decode` of @scure/base: throws on an odd-length string or on any
    character outside the lowercase hex alphabet. -/
def hexDecodeChars : List Char → Except String (List Nat)
  | [] => .ok []
  | [_] => .error "hex string expected, got unpadded hex of length odd"
  | c1 :: c2 :: rest =>
    match hexCharVal c1, hexCharVal c2 with
    | some h, some l => (hexDecodeChars rest).map (fun bs => (h * 16 + l) :: bs)
    | _, _ => .error "invalid character in hex string"

def hexDecode (s : String) : Except String (List Nat) := hexDecodeChars s.data

/-- Accumulator of the output loop in `decodePsbt` (lines 580-626). -/
structure PsbtAcc where
  outputs : List PsbtOutputInfo
  depositAddress : Option String
  depositAmount : Nat
  memo : Option String
  refundAddress : Option String
  refundAmount : Nat
deriving DecidableEq, Repr

/-- One iteration of the output loop, lifi.ts lines 588-626.  Address
    extraction for non-OP_RETURN scripts is explicitly unimplemented in the
    source (`address = null` in both arms), so `address` is always `none`. -/
def processOutput (acc : PsbtAcc) (io : Nat × ScureOutput) : PsbtAcc :=
  let i := io.1
  let o := io.2
  let script := o.script.getD []
  let scriptHex := hexEncode script
  let isOpRet := isOpReturnScript script
  let address : Option String := none
  let amount := o.amount.getD 0
  let acc1 : PsbtAcc :=
    { acc with
      outputs := acc.outputs ++
        [{ index := i, address := address, amount := amount,
           isOpReturn := isOpRet, script := scriptHex }] }
  if i == 0 then
    { acc1 with depositAddress := address, depositAmount := amount }
  else if i == 1 && isOpRet then
    { acc1 with memo := extractOpReturnMemo script }
  else if i == 2 then
    { acc1 with refundAddress := address, refundAmount := amount }
  else acc1

/-- The try-block of `decodePsbt` (lines 572-636); every fallible step is in
    `Except`, mirroring a JS exception. -/
def decodePsbtBody (fromPSBT : List Nat → Except String ScureTx)
    (psbtHex : String) : Except String ParsedPsbtData := do
  let psbtBytes ← hexDecode psbtHex
  let tx ← fromPSBT psbtBytes
  let acc := tx.outputs.enum.foldl processOutput ⟨[], none, 0, none, none, 0⟩
  let bytes ← tx.txBytes
  return { depositAddress := acc.depositAddress, depositAmount := acc.depositAmount,
           memo := acc.memo, refundAddress := acc.refundAddress,
           refundAmount := acc.refundAmount, outputs := acc.outputs,
           rawTxHex := hexEncode bytes }

/-- The all-empty/zeroed result returned from the catch-block (lines 640-648). -/
def emptyParsedPsbt : ParsedPsbtData :=
  { depositAddress := none, depositAmount := 0, memo := none,
    refundAddress := none, refundAmount := 0, outputs := [], rawTxHex := "" }

/-- lifi.ts lines 571-650: `decodePsbt`, with the universal catch that absorbs
    every exception into the zeroed result. -/
def decodePsbt (fromPSBT : List Nat → Except String ScureTx)
    (psbtHex : String) : ParsedPsbtData :=
  match decodePsbtBody fromPSBT psbtHex with
  | .ok r => r
  | .error _ => emptyParsedPsbt

/- ### lifi.ts : quote normalization (lines 160-385) -/

structure LifiToken where
  address : String
  chainId : Nat
  symbol : String
  decimals : Nat
  name : String
  coinKey : Option String
  priceUSD : Option String
  logoURI : Option String
deriving DecidableEq, Repr

structure LifiToolDetails where
  key : String
  name : String
  logoURI : Option String
deriving DecidableEq, Repr

/-- Token amounts are decimal integer strings in the API; they are modelled as
    `Nat`.  `slippage` is a JS number used only as an opaque request field, so
    it is modelled as `ℚ`. -/
structure LifiAction where
  fromToken : LifiToken
  toToken : LifiToken
  fromChainId : Nat
  toChainId : Nat
  fromAmount : Nat
  slippage : ℚ
  fromAddress : String
  toAddress : String
deriving DecidableEq, Repr

/-- `feeCosts`/`gasCosts` are carried through opaquely by the code under
    verification and are elided. -/
structure LifiEstimate where
  tool : String
  fromAmount : Nat
  fromAmountUSD : Option String
  toAmount : Nat
  toAmountMin : Nat
  toAmountUSD : Option String
  approvalAddress : Option String
  executionDuration : Nat
deriving DecidableEq, Repr

/-- `to` and `from` are keywords here, so those two source fields are named
    `toAddr` and `fromAddr`. -/
structure LifiTransactionRequest where
  toAddr : String
  value : Nat
  data : String
  fromAddr : Option String
  chainId : Option Nat
  gasLimit : Option Nat
  gasPrice : Option Nat
deriving DecidableEq, Repr

/-- A step of an advanced route (lifi.ts lines 235-248).  The optional nested
    `includedSteps` of a step is never read by the code under verification and
    is elided. -/
structure LifiRouteStep where
  id : String
  type : String
  tool : String
  toolDetails : LifiToolDetails
  action : LifiAction
  estimate : LifiEstimate
  transactionRequest : Option LifiTransactionRequest
deriving DecidableEq, Repr

structure LifiRoute where
  id : String
  fromChainId : Nat
  fromAmount : Nat
  fromAmountUSD : String
  fromToken : LifiToken
  fromAddress : String
  toChainId : Nat
  toAmount : Nat
  toAmountMin : Nat
  toAmountUSD : String
  toToken : LifiToken
  toAddress : String
  steps : List LifiRouteStep
  tags : List String
deriving DecidableEq, Repr

/-- `routes` may be absent from the response (`!routesResponse.routes`). -/
structure LifiAdvancedRoutesResponse where
  routes : Option (List LifiRoute)
deriving DecidableEq, Repr

/-- The reduced step shape placed in `includedSteps` of the normalized quote
    (lifi.ts lines 371-378). -/
structure LifiStepSummary where
  id : String
  type : String
  tool : String
  toolDetails : LifiToolDetails
  action : LifiAction
  estimate : LifiEstimate
deriving DecidableEq, Repr

structure LifiQuoteResponse where
  id : String
  type : String
  tool : String
  toolDetails : LifiToolDetails
  action : LifiAction
  estimate : LifiEstimate
  includedSteps : Option (List LifiStepSummary)
  transactionRequest : LifiTransactionRequest
deriving DecidableEq, Repr

/-- `GetBtcToEvmQuoteParams` (lifi.ts lines 163-171). -/
structure GetBtcToEvmQuoteParams where
  fromAddress : String
  fromAmount : Nat
  toChainId : Nat
  toAddress : String
  toToken : String
  slippage : Option ℚ
  allowBridges : Option (List String)
deriving DecidableEq, Repr

/-- `LifiApiError` (message, optional HTTP status; the attached response
    payload is elided). -/
structure LifiErr where
  message : String
  statusCode : Option Nat
deriving DecidableEq, Repr

/-- The request body built by `getAdvancedRoutes` (lifi.ts lines 264-281). -/
structure AdvancedRoutesBody where
  fromChainId : Nat
  fromTokenAddress : String
  fromAmount : Nat
  fromAddress : String
  toChainId : Nat
  toTokenAddress : String
  toAddress : String
  slippage : ℚ
  allowSwitchChain : Bool
  bridgesAllow : Option (List String)
deriving DecidableEq, Repr

/-- The query string built by `getBtcToEvmQuote` (lifi.ts lines 190-206). -/
structure QuoteQuery where
  fromChain : String
  fromToken : String
  fromAddress : String
  fromAmount : Nat
  toChain : String
  toToken : String
  toAddress : String
  slippage : ℚ
  allowBridges : Option String
deriving DecidableEq, Repr

def advancedRoutesBody (params : GetBtcToEvmQuoteParams) : AdvancedRoutesBody :=
  { fromChainId := 20000000000001
    fromTokenAddress := "bitcoin"
    fromAmount := params.fromAmount
    fromAddress := params.fromAddress
    toChainId := params.toChainId
    toTokenAddress := params.toToken
    toAddress := params.toAddress
    slippage := (params.slippage.getD (1 / 100))
    allowSwitchChain := true
    bridgesAllow :=
      match params.allowBridges with
      | some l => if 0 < l.length then some l else none
      | none => none }

def quoteQuery (params : GetBtcToEvmQuoteParams) : QuoteQuery :=
  { fromChain := "BTC"
    fromToken := "bitcoin"
    fromAddress := params.fromAddress
    fromAmount := params.fromAmount
    toChain := toString params.toChainId
    toToken := params.toToken
    toAddress := params.toAddress
    slippage := (params.slippage.getD (1 / 100))
    allowBridges :=
      match params.allowBridges with
      | some l => if 0 < l.length then some (String.intercalate "," l) else none
      | none => none }

/-- The three Li.Fi endpoints used by `getBtcToEvmQuoteSmart`, as an oracle:
    each function returns what the corresponding awaited call yields at its
    call site (a parsed response, or the `LifiApiError` it throws). -/
structure LifiApi where
  advancedRoutes : AdvancedRoutesBody → Except LifiErr LifiAdvancedRoutesResponse
  stepTransaction : LifiRouteStep → Except LifiErr LifiRouteStep
  quote : QuoteQuery → Except LifiErr LifiQuoteResponse

/-- A record of which endpoints a run actually invoked, in order. -/
inductive LifiCall
  | advancedRoutes (body : AdvancedRoutesBody)
  | stepTransaction (step : LifiRouteStep)
  | quote (q : QuoteQuery)
deriving DecidableEq, Repr

/-- Errors escaping `getBtcToEvmQuoteSmart`: a thrown `LifiApiError`, or the
    TypeError raised by reading `.transactionRequest` of `route.steps[0]`
    when the route has no steps. -/
inductive SmartError
  | api (e : LifiErr)
  | jsTypeError
deriving DecidableEq, Repr

def HYPERLIQUID_CHAIN_ID : Nat := 1337

/-- lifi.ts lines 186-209: `getBtcToEvmQuote` (the direct /quote endpoint). -/
def getBtcToEvmQuote (api : LifiApi) (params : GetBtcToEvmQuoteParams) :
    Except LifiErr LifiQuoteResponse × List LifiCall :=
  (api.quote (quoteQuery params), [.quote (quoteQuery params)])

def stepSummary (s : LifiRouteStep) : LifiStepSummary :=
  { id := s.id, type := s.type, tool := s.tool, toolDetails := s.toolDetails,
    action := s.action, estimate := s.estimate }

/-- lifi.ts lines 338-380: synthesis of the canonical quote from the chosen
    route once `stepWithTx` is known. -/
def synthQuote (route : LifiRoute) (firstStep stepWithTx : LifiRouteStep) :
    Except SmartError LifiQuoteResponse :=
  match stepWithTx.transactionRequest with
  | none => .error (.api { message := "Failed to get transaction request for route",
                           statusCode := some 500 })
  | some txReq =>
    .ok
      { id := route.id
        type := "lifi"
        tool := firstStep.tool
        toolDetails := firstStep.toolDetails
        action := { firstStep.action with
                    toToken := route.toToken, toChainId := route.toChainId }
        estimate := { firstStep.estimate with
                      toAmount := route.toAmount
                      toAmountMin := route.toAmountMin
                      toAmountUSD := some route.toAmountUSD
                      executionDuration :=
                        route.steps.foldl
                          (fun sum s => sum + s.estimate.executionDuration) 0 }
        includedSteps := some (route.steps.map stepSummary)
        transactionRequest := txReq }

/-- lifi.ts lines 318-385: `getBtcToEvmQuoteSmart`, returning the result
    together with the ordered list of endpoint calls it issued. -/
def getBtcToEvmQuoteSmart (api : LifiApi) (params : GetBtcToEvmQuoteParams) :
    Except SmartError LifiQuoteResponse × List LifiCall :=
  if params.toChainId == HYPERLIQUID_CHAIN_ID then
    let body := advancedRoutesBody params
    match api.advancedRoutes body with
    | .error e => (.error (.api e), [.advancedRoutes body])
    | .ok routesResponse =>
      match routesResponse.routes with
      | none =>
        (.error (.api { message := "No available routes for BTC to Hyperliquid",
                        statusCode := some 404 }), [.advancedRoutes body])
      | some [] =>
        (.error (.api { message := "No available routes for BTC to Hyperliquid",
                        statusCode := some 404 }), [.advancedRoutes body])
      | some (route :: _) =>
        match route.steps with
        | [] => (.error .jsTypeError, [.advancedRoutes body])
        | firstStep :: _ =>
          match firstStep.transactionRequest with
          | some _ =>
            (synthQuote route firstStep firstStep, [.advancedRoutes body])
          | none =>
            match api.stepTransaction firstStep with
            | .error e =>
              (.error (.api e), [.advancedRoutes body, .stepTransaction firstStep])
            | .ok stepWithTx =>
              (synthQuote route firstStep stepWithTx,
               [.advancedRoutes body, .stepTransaction firstStep])
  else
    let r := getBtcToEvmQuote api params
    (r.1.mapError .api, r.2)

/- ### pear-api.ts : pearApiRequest (lines 45-153) -/

/-- The token pair held by the shared zustand session store. -/
structure PearSession where
  pearAccessToken : Option String
  pearRefreshToken : Option String
deriving DecidableEq, Repr

/-- `resetPearAuth` clears both tokens (userStore.ts lines 86-92; the approval
    flags it also clears are not read by `pearApiRequest`). -/
def resetSession : PearSession := { pearAccessToken := none, pearRefreshToken := none }

/-- The outcome of one `fetch` call: either a response (its HTTP status
    plus what `extractErrorMessage` yields on its parsed error body), or a
    rejection of the fetch promise itself. -/
inductive FetchOutcome
  | resp (status : Nat) (errMsg : String)
  | reject (msg : String)
deriving DecidableEq, Repr

/-- The outcome of one call to `refreshPearToken`, embedded at its call-site
    contract: on success it has stored the two new tokens via `setPearTokens`
    and returns; on failure the awaited call throws. -/
inductive RefreshOutcome
  | success (accessToken refreshToken : String)
  | failure
deriving DecidableEq, Repr

/-- Errors thrown by `pearApiRequest`: a `PearApiException` (message and
    status code), or a plain JS `Error`. -/
inductive PearError
  | apiExc (message : String) (statusCode : Nat)
  | jsError (message : String)
deriving DecidableEq, Repr

/-- Observable state threaded through a run: the session store, how many
    `fetch` and `refreshPearToken` calls happened, how many loop iterations
    started, and the list of backoff sleeps (in ms) in order. -/
structure RunState where
  session : PearSession
  fetchCalls : Nat
  refreshCalls : Nat
  attemptsStarted : Nat
  sleeps : List Nat
deriving DecidableEq, Repr

/-- `Response.ok`: status in the range 200-299. -/
def respOk (status : Nat) : Bool := decide (200 ≤ status) && decide (status < 300)

def MAX_RETRIES : Nat := 3
def RETRY_DELAY_BASE : Nat := 1000

/-- `error instanceof PearApiException && error.statusCode !== 401`
    (pear-api.ts line 141). -/
def isNon401ApiExc : PearError → Bool
  | .apiExc _ s => !(s == 401)
  | .jsError _ => false

/-- One iteration of the retry loop: the try-block of pear-api.ts lines
    53-137.  `fetchO n` is the outcome of the (n+1)-th `fetch` of this run,
    `refreshO n` the outcome of the (n+1)-th refresh call. -/
def attemptOnce (requireAuth : Bool) (fetchO : Nat → FetchOutcome)
    (refreshO : Nat → RefreshOutcome) (st : RunState) :
    Except PearError Unit × RunState :=
  if requireAuth && !truthy st.session.pearAccessToken then
    (.error (.apiExc "Authentication required" 401), st)
  else
    let outcome := fetchO st.fetchCalls
    let st1 : RunState := { st with fetchCalls := st.fetchCalls + 1 }
    match outcome with
    | .reject msg => (.error (.jsError msg), st1)
    | .resp status errMsg =>
      if status == 401 && requireAuth then
        if truthy st1.session.pearRefreshToken then
          let r := refreshO st1.refreshCalls
          let st2 : RunState := { st1 with refreshCalls := st1.refreshCalls + 1 }
          match r with
          | .failure =>
            (.error (.apiExc "Session expired. Please reconnect." 401),
             { st2 with session := resetSession })
          | .success a r' =>
            let st3 : RunState :=
              { st2 with session := { pearAccessToken := some a,
                                      pearRefreshToken := some r' } }
            if truthy (some a) then
              let retryOutcome := fetchO st3.fetchCalls
              let st4 : RunState := { st3 with fetchCalls := st3.fetchCalls + 1 }
              match retryOutcome with
              | .reject _ =>
                (.error (.apiExc "Session expired. Please reconnect." 401),
                 { st4 with session := resetSession })
              | .resp s2 _ =>
                if respOk s2 then (.ok (), st4)
                else
                  (.error (.apiExc "Session expired. Please reconnect." 401),
                   { st4 with session := resetSession })
            else
              (.error (.apiExc errMsg 401), st3)
        else
          (.error (.apiExc "Session expired. Please reconnect." 401),
           { st1 with session := resetSession })
      else
        if respOk status then (.ok (), st1)
        else (.error (.apiExc errMsg status), st1)

/-- The retry loop of pear-api.ts lines 50-152, structurally recursive on the
    remaining iteration count `fuel` (the invariant at every call is
    `fuel = MAX_RETRIES - attempt`, so `fuel = 0` is exactly the loop's exit,
    where `throw lastError || new Error(...)` runs). -/
def pearLoop (requireAuth : Bool) (fetchO : Nat → FetchOutcome)
    (refreshO : Nat → RefreshOutcome) :
    Nat → Nat → Option PearError → RunState → Except PearError Unit × RunState
  | 0, _, lastError, st =>
    (.error (lastError.getD (.jsError "Request failed after retries")), st)
  | fuel + 1, attempt, _, st =>
    let st0 : RunState := { st with attemptsStarted := st.attemptsStarted + 1 }
    match attemptOnce requireAuth fetchO refreshO st0 with
    | (.ok _, st') => (.ok (), st')
    | (.error e, st') =>
      if isNon401ApiExc e then (.error e, st')
      else if attempt < MAX_RETRIES - 1 then
        pearLoop requireAuth fetchO refreshO fuel (attempt + 1) (some e)
          { st' with sleeps := st'.sleeps ++ [RETRY_DELAY_BASE * 2 ^ attempt] }
      else
        pearLoop requireAuth fetchO refreshO fuel (attempt + 1) (some e) st'

def initRunState (session : PearSession) : RunState :=
  { session := session, fetchCalls := 0, refreshCalls := 0,
    attemptsStarted := 0, sleeps := [] }

/-- pear-api.ts lines 45-153: `pearApiRequest`, returning the final outcome
    (`.ok` for a 2xx body, `.error` for the thrown exception) and the final
    observable state. -/
def pearApiRequest (requireAuth : Bool) (fetchO : Nat → FetchOutcome)
    (refreshO : Nat → RefreshOutcome) (session : PearSession) :
    Except PearError Unit × RunState :=
  pearLoop requireAuth fetchO refreshO MAX_RETRIES 0 none (initRunState session)

/- ### Concrete sample data (used by witness theorems) -/

def sampleBtcToken : LifiToken :=
  { address := "bitcoin", chainId := 20000000000001, symbol := "BTC", decimals := 8,
    name := "Bitcoin", coinKey := none, priceUSD := none, logoURI := none }

def sampleEthToken : LifiToken :=
  { address := "0x0", chainId := 1, symbol := "ETH", decimals := 18, name := "Ether",
    coinKey := none, priceUSD := none, logoURI := none }

def sampleHypeToken : LifiToken :=
  { address := "0xhype", chainId := 1337, symbol := "HYPE", decimals := 18,
    name := "Hype", coinKey := none, priceUSD := none, logoURI := none }

def sampleAction : LifiAction :=
  { fromToken := sampleBtcToken, toToken := sampleEthToken,
    fromChainId := 20000000000001, toChainId := 1, fromAmount := 100,
    slippage := 1 / 100, fromAddress := "bc1", toAddress := "0xabc" }

def sampleEstimate : LifiEstimate :=
  { tool := "t", fromAmount := 100, fromAmountUSD := none, toAmount := 100,
    toAmountMin := 90, toAmountUSD := none, approvalAddress := none,
    executionDuration := 5 }

def sampleTxReq : LifiTransactionRequest :=
  { toAddr := "bc1vault", value := 100, data := "00", fromAddr := none,
    chainId := none, gasLimit := none, gasPrice := none }

def sampleQuote : LifiQuoteResponse :=
  { id := "q1", type := "lifi", tool := "t",
    toolDetails := { key := "t", name := "t", logoURI := none },
    action := sampleAction, estimate := sampleEstimate,
    includedSteps := none, transactionRequest := sampleTxReq }

def sampleParams : GetBtcToEvmQuoteParams :=
  { fromAddress := "bc1", fromAmount := 100, toChainId := 1, toAddress := "0xabc",
    toToken := "0x0", slippage := none, allowBridges := none }

def sampleParamsHL : GetBtcToEvmQuoteParams :=
  { fromAddress := "bc1", fromAmount := 100, toChainId := 1337, toAddress := "0xabc",
    toToken := "0xhype", slippage := none, allowBridges := none }

def sampleStep1 : LifiRouteStep :=
  { id := "s1", type := "cross", tool := "relaydepository",
    toolDetails := { key := "relaydepository", name := "Relay", logoURI := none },
    action := sampleAction,
    estimate := { tool := "relaydepository", fromAmount := 100, fromAmountUSD := none,
                  toAmount := 95, toAmountMin := 93, toAmountUSD := none,
                  approvalAddress := none, executionDuration := 7 },
    transactionRequest := some sampleTxReq }

def sampleStep2 : LifiRouteStep :=
  { id := "s2", type := "swap", tool := "hyperliquidProtocol",
    toolDetails := { key := "hyperliquidProtocol", name := "Hyperliquid", logoURI := none },
    action := { sampleAction with toToken := sampleHypeToken, toChainId := 1337 },
    estimate := { tool := "hyperliquidProtocol", fromAmount := 95, fromAmountUSD := none,
                  toAmount := 92, toAmountMin := 88, toAmountUSD := none,
                  approvalAddress := none, executionDuration := 4 },
    transactionRequest := none }

def sampleRoute : LifiRoute :=
  { id := "r1", fromChainId := 20000000000001, fromAmount := 100,
    fromAmountUSD := "1.00", fromToken := sampleBtcToken, fromAddress := "bc1",
    toChainId := 1337, toAmount := 92, toAmountMin := 88, toAmountUSD := "0.92",
    toToken := sampleHypeToken, toAddress := "0xabc",
    steps := [sampleStep1, sampleStep2], tags := [] }

/-- Sample oracle for the single-hop path: only /quote answers. -/
def sampleQuoteApi : LifiApi :=
  { advancedRoutes := fun _ => Except.error { message := "down", statusCode := none }
    stepTransaction := fun _ => Except.error { message := "down", statusCode := none }
    quote := fun _ => Except.ok sampleQuote }

/-- Sample oracle for the multi-step path: one route with two steps. -/
def sampleRoutesApi : LifiApi :=
  { advancedRoutes := fun _ => Except.ok { routes := some [sampleRoute] }
    stepTransaction := fun _ => Except.error { message := "down", statusCode := none }
    quote := fun _ => Except.error { message := "down", statusCode := none } }

/-- Sample oracle for the multi-step path returning zero routes. -/
def sampleEmptyRoutesApi : LifiApi :=
  { advancedRoutes := fun _ => Except.ok { routes := some [] }
    stepTransaction := fun _ => Except.error { message := "down", statusCode := none }
    quote := fun _ => Except.error { message := "down", statusCode := none } }

/-- The quote that `getBtcToEvmQuoteSmart` synthesizes for `sampleRoutesApi`
    and `sampleParamsHL`. -/
def sampleSynthesizedQuote : LifiQuoteResponse :=
  (synthQuote sampleRoute sampleStep1 sampleStep1).toOption.getD sampleQuote

/- ### Helper lemmas -/

theorem foldl_add_executionDuration (l : List LifiRouteStep) (n : Nat) :
    l.foldl (fun sum s => sum + s.estimate.executionDuration) n =
      n + (l.map (fun s => s.estimate.executionDuration)).sum := by
  induction l generalizing n with
  | nil => simp
  | cons x xs ih =>
    simp only [List.foldl_cons, List.map_cons, List.sum_cons, ih]
    omega

theorem sliceData_exact (pre data : List Nat) (offset : Nat)
    (h : pre.length = offset) :
    sliceData (pre ++ data) offset (data.length : Int) = data := by
  subst h
  have hlen : ((pre ++ data).length : Int) = (pre.length : Int) + data.length := by
    push_cast [List.length_append]
    ring
  simp only [sliceData, jsSliceEnd, hlen]
  rw [if_neg (by omega)]
  rw [if_neg (by omega)]
  have hmin : min ((pre.length : Int) + (data.length : Int))
      ((pre.length : Int) + (data.length : Int)) = (pre.length : Int) + (data.length : Int) :=
    min_self _
  rw [hmin]
  have htn : ((pre.length : Int) + (data.length : Int)).toNat = pre.length + data.length := by
    omega
  rw [htn]
  rw [show pre.length + data.length = (pre ++ data).length by simp]
  rw [List.take_length, List.drop_left]

/- ### C9 : getAuthStatus state machine -/

/-- C9: `getAuthStatus` is a pure function of the wallet-connected flag, token
    presence and the two approval flags: `not_connected` whenever the wallet is
    disconnected, `connected` when connected without a token, `authenticated`
    when a token exists but either approval gate fails, and `ready_to_trade`
    exactly when all four conditions hold; identical inputs give identical
    outputs. -/
theorem getAuthStatus_spec (conn : Bool) (st : UserState) :
    (conn = false → getAuthStatus conn st = .not_connected) ∧
    (conn = true → truthy st.pearAccessToken = false →
      getAuthStatus conn st = .connected) ∧
    (conn = true → truthy st.pearAccessToken = true →
      (st.builderCodeApproved = false ∨ st.agentWalletApproved = false) →
      getAuthStatus conn st = .authenticated) ∧
    (getAuthStatus conn st = .ready_to_trade ↔
      conn = true ∧ truthy st.pearAccessToken = true ∧
      st.builderCodeApproved = true ∧ st.agentWalletApproved = true) ∧
    getAuthStatus conn st = getAuthStatus conn st := by
  obtain ⟨tok, b, a⟩ := st
  cases conn <;> cases b <;> cases a <;> cases htok : truthy tok <;>
    simp [getAuthStatus, htok]

/-- Witness for C9 at concrete inputs. -/
theorem getAuthStatus_spec_witness :
    getAuthStatus true ⟨some "t", true, false⟩ = .authenticated ∧
    getAuthStatus true ⟨some "t", true, true⟩ = .ready_to_trade ∧
    getAuthStatus false ⟨some "t", true, true⟩ = .not_connected :=
  ⟨(getAuthStatus_spec true ⟨some "t", true, false⟩).2.2.1 rfl (by decide)
      (Or.inr rfl),
   ((getAuthStatus_spec true ⟨some "t", true, true⟩).2.2.2.1).mpr
      ⟨rfl, by decide, rfl, rfl⟩,
   (getAuthStatus_spec false ⟨some "t", true, true⟩).1 rfl⟩

/- ### C10 : truncated PUSHDATA length prefixes -/

/-- C10: for an OP_RETURN script whose push-length prefix is itself truncated
    (bare `0x6a`; `0x6a 0x4c` with no length byte; `0x6a 0x4d` with fewer than
    two length bytes; `0x6a 0x4e` with fewer than four length bytes),
    `extractOpReturnMemo` returns null rather than a hex fallback or a
    truncated slice. -/
theorem extractOpReturnMemo_truncated_length_returns_null :
    extractOpReturnMemo [0x6a] = none ∧
    extractOpReturnMemo [0x6a, 0x4c] = none ∧
    (∀ b : Nat, extractOpReturnMemo [0x6a, 0x4d] = none ∧
      extractOpReturnMemo [0x6a, 0x4d, b] = none) ∧
    (∀ b c d : Nat, extractOpReturnMemo [0x6a, 0x4e] = none ∧
      extractOpReturnMemo [0x6a, 0x4e, b] = none ∧
      extractOpReturnMemo [0x6a, 0x4e, b, c] = none ∧
      extractOpReturnMemo [0x6a, 0x4e, b, c, d] = none) := by
  refine ⟨by decide, by decide, fun b => ⟨by decide, ?_⟩,
    fun b c d => ⟨by decide, ?_, ?_, ?_⟩⟩ <;>
    simp [extractOpReturnMemo, isOpReturnScript, List.getD]

/- ### C7 : push-length round trips -/

/-- C7: for every byte sequence correctly encoded with a direct push
    (length up to 75, covering lengths 0, 1 and 75), with OP_PUSHDATA1
    (length up to 255, covering 76 and 255), or with OP_PUSHDATA2
    (length up to 65535, covering 256 and 65535), `extractOpReturnMemo` of the
    script `0x6a ++ push-length encoding ++ data` recovers exactly `data`,
    rendered by the source's classification rule (`renderMemoData`: UTF-8 text
    when more than 70% of the bytes are printable, 0x-hex with an optional
    tracking suffix otherwise). -/
theorem extractOpReturnMemo_roundtrip (data : List Nat) :
    (data.length ≤ 0x4b →
      extractOpReturnMemo (0x6a :: data.length :: data) =
        some (renderMemoData data)) ∧
    (data.length ≤ 0xff →
      extractOpReturnMemo (0x6a :: 0x4c :: data.length :: data) =
        some (renderMemoData data)) ∧
    (data.length ≤ 0xffff →
      extractOpReturnMemo
          (0x6a :: 0x4d :: data.length % 256 :: data.length / 256 :: data) =
        some (renderMemoData data)) := by
  refine ⟨fun h1 => ?_, fun h2 => ?_, fun h3 => ?_⟩
  · have hslice : sliceData (0x6a :: data.length :: data) 2 (data.length : Int) = data := by
      have h := sliceData_exact [0x6a, data.length] data 2 rfl
      simpa using h
    have c2 : decide (1 ≥ (0x6a :: data.length :: data).length) = false := by
      simp only [decide_eq_false_iff_not, List.length_cons]
      omega
    simp [extractOpReturnMemo, isOpReturnScript, c2, h1, hslice]
  · have hslice : sliceData (0x6a :: 0x4c :: data.length :: data) 3
        (data.length : Int) = data := by
      have h := sliceData_exact [0x6a, 0x4c, data.length] data 3 rfl
      simpa using h
    have c2 : decide (1 ≥ (0x6a :: 0x4c :: data.length :: data).length) = false := by
      simp only [decide_eq_false_iff_not, List.length_cons]
      omega
    have c4 : decide (2 ≥ (0x6a :: 0x4c :: data.length :: data).length) = false := by
      simp only [decide_eq_false_iff_not, List.length_cons]
      omega
    simp [extractOpReturnMemo, isOpReturnScript, c2, c4, hslice]
  · have harith : data.length % 256 + data.length / 256 * 256 = data.length :=
      Nat.mod_add_div' data.length 256
    have hslice : sliceData
        (0x6a :: 0x4d :: data.length % 256 :: data.length / 256 :: data) 4
        ((data.length % 256 + data.length / 256 * 256 : Nat) : Int) = data := by
      have h := sliceData_exact [0x6a, 0x4d, data.length % 256, data.length / 256]
        data 4 rfl
      rw [harith]
      simpa using h
    have c2 : decide (1 ≥
        (0x6a :: 0x4d :: data.length % 256 :: data.length / 256 :: data).length) = false := by
      simp only [decide_eq_false_iff_not, List.length_cons]
      omega
    have c4 : decide (2 + 1 ≥
        (0x6a :: 0x4d :: data.length % 256 :: data.length / 256 :: data).length) = false := by
      simp only [decide_eq_false_iff_not, List.length_cons]
      omega
    simp only [extractOpReturnMemo, isOpReturnScript, c2, c4, List.getD_cons_succ,
      List.getD_cons_zero, beq_self_eq_true, Bool.not_true, Bool.false_eq_true,
      if_false, if_true, Bool.not_eq_true']
    rw [hslice]
    norm_num

/-- Witness for C7: one concrete instance per push-length class. -/
theorem extractOpReturnMemo_roundtrip_witness :
    extractOpReturnMemo [0x6a, 1, 0x61] = some (renderMemoData [0x61]) ∧
    extractOpReturnMemo [0x6a, 0x4c, 1, 0x61] = some (renderMemoData [0x61]) ∧
    extractOpReturnMemo [0x6a, 0x4d, 1, 0, 0x61] = some (renderMemoData [0x61]) :=
  ⟨(extractOpReturnMemo_roundtrip [0x61]).1 (by decide),
   (extractOpReturnMemo_roundtrip [0x61]).2.1 (by decide),
   (extractOpReturnMemo_roundtrip [0x61]).2.2 (by decide)⟩


/- ### Pear client lemmas -/

theorem attemptOnce_preserves (requireAuth : Bool) (fetchO : Nat → FetchOutcome)
    (refreshO : Nat → RefreshOutcome) (st : RunState) :
    ((attemptOnce requireAuth fetchO refreshO st).2).sleeps = st.sleeps ∧
    ((attemptOnce requireAuth fetchO refreshO st).2).attemptsStarted =
      st.attemptsStarted := by
  simp only [attemptOnce]
  repeat' split
  all_goals exact ⟨rfl, rfl⟩

theorem attemptOnce_no_token (fetchO : Nat → FetchOutcome)
    (refreshO : Nat → RefreshOutcome) (st : RunState)
    (h : truthy st.session.pearAccessToken = false) :
    attemptOnce true fetchO refreshO st =
      (.error (.apiExc "Authentication required" 401), st) := by
  simp [attemptOnce, h]

theorem pearLoop_succ_ok (requireAuth : Bool) (fetchO : Nat → FetchOutcome)
    (refreshO : Nat → RefreshOutcome) (n attempt : Nat)
    (lastError : Option PearError) (st st1 : RunState) (u : Unit)
    (hA : attemptOnce requireAuth fetchO refreshO
      { st with attemptsStarted := st.attemptsStarted + 1 } = (.ok u, st1)) :
    pearLoop requireAuth fetchO refreshO (n + 1) attempt lastError st =
      (.ok (), st1) := by
  simp only [pearLoop, hA]

theorem pearLoop_succ_error (requireAuth : Bool) (fetchO : Nat → FetchOutcome)
    (refreshO : Nat → RefreshOutcome) (n attempt : Nat)
    (lastError : Option PearError) (st : RunState) (e : PearError) (st1 : RunState)
    (hA : attemptOnce requireAuth fetchO refreshO
      { st with attemptsStarted := st.attemptsStarted + 1 } = (.error e, st1)) :
    pearLoop requireAuth fetchO refreshO (n + 1) attempt lastError st =
      (if isNon401ApiExc e then (.error e, st1)
       else if attempt < MAX_RETRIES - 1 then
         pearLoop requireAuth fetchO refreshO n (attempt + 1) (some e)
           { st1 with sleeps := st1.sleeps ++ [RETRY_DELAY_BASE * 2 ^ attempt] }
       else pearLoop requireAuth fetchO refreshO n (attempt + 1) (some e) st1) := by
  simp only [pearLoop, hA]

theorem pearLoop_attempts_le (requireAuth : Bool) (fetchO : Nat → FetchOutcome)
    (refreshO : Nat → RefreshOutcome) :
    ∀ fuel attempt lastError (st : RunState),
      ((pearLoop requireAuth fetchO refreshO fuel attempt lastError st).2).attemptsStarted ≤
        st.attemptsStarted + fuel := by
  intro fuel
  induction fuel with
  | zero => intro attempt lastError st; simp [pearLoop]
  | succ n ih =>
    intro attempt lastError st
    rcases hA : attemptOnce requireAuth fetchO refreshO
        { st with attemptsStarted := st.attemptsStarted + 1 } with ⟨r, st1⟩
    have hat : st1.attemptsStarted = st.attemptsStarted + 1 := by
      have h := (attemptOnce_preserves requireAuth fetchO refreshO
        { st with attemptsStarted := st.attemptsStarted + 1 }).2
      rw [hA] at h
      simpa using h
    rcases r with e | u
    · rw [pearLoop_succ_error requireAuth fetchO refreshO n attempt lastError st e st1 hA]
      by_cases hne : isNon401ApiExc e = true
      · rw [if_pos hne]
        show st1.attemptsStarted ≤ st.attemptsStarted + (n + 1)
        omega
      · rw [if_neg hne]
        by_cases hlt : attempt < MAX_RETRIES - 1
        · rw [if_pos hlt]
          have h2 := ih (attempt + 1) (some e)
            { st1 with sleeps := st1.sleeps ++ [RETRY_DELAY_BASE * 2 ^ attempt] }
          have h3 : ({ st1 with sleeps :=
              st1.sleeps ++ [RETRY_DELAY_BASE * 2 ^ attempt] } : RunState).attemptsStarted =
              st1.attemptsStarted := rfl
          rw [h3] at h2
          omega
        · rw [if_neg hlt]
          have h2 := ih (attempt + 1) (some e) st1
          omega
    · rw [pearLoop_succ_ok requireAuth fetchO refreshO n attempt lastError st st1 u hA]
      show st1.attemptsStarted ≤ st.attemptsStarted + (n + 1)
      omega

theorem backoff_range_shift (B attempt k : Nat) :
    B * 2 ^ attempt :: (List.range k).map (fun i => B * 2 ^ (attempt + 1 + i)) =
      (List.range (k + 1)).map (fun i => B * 2 ^ (attempt + i)) := by
  rw [List.range_succ_eq_map]
  simp only [List.map_cons, List.map_map]
  congr 1
  apply List.map_congr_left
  intro i _
  have h : attempt + 1 + i = attempt + (i + 1) := by omega
  simp [Function.comp_apply, h]

theorem pearLoop_sleeps_shape (requireAuth : Bool) (fetchO : Nat → FetchOutcome)
    (refreshO : Nat → RefreshOutcome) :
    ∀ fuel attempt lastError (st : RunState),
      ∃ k, ((pearLoop requireAuth fetchO refreshO fuel attempt lastError st).2).sleeps =
          st.sleeps ++ (List.range k).map (fun i => RETRY_DELAY_BASE * 2 ^ (attempt + i)) ∧
        attempt + k ≤ max attempt (MAX_RETRIES - 1) := by
  intro fuel
  induction fuel with
  | zero =>
    intro attempt lastError st
    exact ⟨0, by simp [pearLoop], by omega⟩
  | succ n ih =>
    intro attempt lastError st
    rcases hA : attemptOnce requireAuth fetchO refreshO
        { st with attemptsStarted := st.attemptsStarted + 1 } with ⟨r, st1⟩
    have hsl : st1.sleeps = st.sleeps := by
      have h := (attemptOnce_preserves requireAuth fetchO refreshO
        { st with attemptsStarted := st.attemptsStarted + 1 }).1
      rw [hA] at h
      simpa using h
    rcases r with e | u
    · rw [pearLoop_succ_error requireAuth fetchO refreshO n attempt lastError st e st1 hA]
      by_cases hne : isNon401ApiExc e = true
      · rw [if_pos hne]
        exact ⟨0, by simpa using hsl, by omega⟩
      · rw [if_neg hne]
        by_cases hlt : attempt < MAX_RETRIES - 1
        · rw [if_pos hlt]
          obtain ⟨k1, hk1, hle1⟩ := ih (attempt + 1) (some e)
            { st1 with sleeps := st1.sleeps ++ [RETRY_DELAY_BASE * 2 ^ attempt] }
          have h3 : ({ st1 with sleeps :=
              st1.sleeps ++ [RETRY_DELAY_BASE * 2 ^ attempt] } : RunState).sleeps =
              st1.sleeps ++ [RETRY_DELAY_BASE * 2 ^ attempt] := rfl
          rw [h3] at hk1
          refine ⟨k1 + 1, ?_, ?_⟩
          · rw [hk1, hsl, List.append_assoc]
            congr 1
            simpa using backoff_range_shift RETRY_DELAY_BASE attempt k1
          · simp only [MAX_RETRIES] at hlt hle1 ⊢
            omega
        · rw [if_neg hlt]
          obtain ⟨k1, hk1, hle1⟩ := ih (attempt + 1) (some e) st1
          have hk10 : k1 = 0 := by
            simp only [MAX_RETRIES] at hlt hle1
            omega
          refine ⟨0, ?_, by omega⟩
          rw [hk1, hk10, hsl]
          simp
    · rw [pearLoop_succ_ok requireAuth fetchO refreshO n attempt lastError st st1 u hA]
      exact ⟨0, by simpa using hsl, by omega⟩

/- ### C6 : bounded retries with exponential backoff -/

/-- C6: `pearApiRequest` starts at most 3 attempts in total, the backoff sleeps
    it performs are exactly a prefix of base-delay-then-doubled
    (`[1000]`, `[1000, 2000]` or none), and an attempt that throws a typed
    `PearApiException` whose status is not 401 makes the loop return that
    exact error at once — same state, no further attempt and no further
    sleep. -/
theorem pearApiRequest_retry_policy (requireAuth : Bool)
    (fetchO : Nat → FetchOutcome) (refreshO : Nat → RefreshOutcome)
    (session : PearSession) :
    ((pearApiRequest requireAuth fetchO refreshO session).2).attemptsStarted ≤ MAX_RETRIES ∧
    (((pearApiRequest requireAuth fetchO refreshO session).2).sleeps = [] ∨
     ((pearApiRequest requireAuth fetchO refreshO session).2).sleeps = [RETRY_DELAY_BASE] ∨
     ((pearApiRequest requireAuth fetchO refreshO session).2).sleeps =
       [RETRY_DELAY_BASE, RETRY_DELAY_BASE * 2]) ∧
    (∀ fuel attempt lastError (st : RunState) m s st1,
       attemptOnce requireAuth fetchO refreshO
         { st with attemptsStarted := st.attemptsStarted + 1 } =
           (.error (.apiExc m s), st1) →
       s ≠ 401 →
       pearLoop requireAuth fetchO refreshO (fuel + 1) attempt lastError st =
         (.error (.apiExc m s), st1)) := by
  refine ⟨?_, ?_, ?_⟩
  · have h := pearLoop_attempts_le requireAuth fetchO refreshO MAX_RETRIES 0 none
      (initRunState session)
    simpa [pearApiRequest, initRunState] using h
  · obtain ⟨k, hk, hle⟩ := pearLoop_sleeps_shape requireAuth fetchO refreshO MAX_RETRIES 0
      none (initRunState session)
    have hk2 : k ≤ 2 := by simp only [MAX_RETRIES] at hle; omega
    simp only [pearApiRequest]
    interval_cases k
    · left
      simpa [initRunState] using hk
    · right; left
      rw [hk]
      simp [initRunState, List.range_succ]
    · right; right
      rw [hk]
      simp [initRunState, List.range_succ]
  · intro fuel attempt lastError st m s st1 hA hs
    have hn : isNon401ApiExc (.apiExc m s) = true := by
      simp [isNon401ApiExc, hs]
    rw [pearLoop_succ_error requireAuth fetchO refreshO fuel attempt lastError st
      (.apiExc m s) st1 hA, if_pos hn]

/-- Witness for C6: a 400 `PearApiException` on the first attempt propagates
    at once, with one fetch, no sleep and no second attempt. -/
theorem pearApiRequest_retry_policy_witness :
    pearLoop false (fun _ => FetchOutcome.resp 400 "Bad Request")
      (fun _ => RefreshOutcome.failure) 3 0 none (initRunState resetSession) =
      (.error (.apiExc "Bad Request" 400),
       { session := resetSession, fetchCalls := 1, refreshCalls := 0,
         attemptsStarted := 1, sleeps := [] }) :=
  (pearApiRequest_retry_policy false (fun _ => FetchOutcome.resp 400 "Bad Request")
    (fun _ => RefreshOutcome.failure) resetSession).2.2 2 0 none
    (initRunState resetSession) "Bad Request" 400
    { session := resetSession, fetchCalls := 1, refreshCalls := 0,
      attemptsStarted := 1, sleeps := [] }
    (by decide) (by decide)
/- ### C8 : decodePsbt absorbs malformed input -/

/-- C8: `decodePsbt` is total (the embedding returns a plain
    `ParsedPsbtData` for every input because every fallible step runs inside
    the universal catch), and on any malformed input — the hex decoding of the
    input string fails, or the PSBT parser throws — it returns the zeroed
    result: empty outputs, null addresses, zero amounts, null memo. -/
theorem decodePsbt_malformed_yields_empty
    (fromPSBT : List Nat → Except String ScureTx) (s : String)
    (h : (∃ e, hexDecode s = .error e) ∨
         (∃ bs e, hexDecode s = .ok bs ∧ fromPSBT bs = .error e)) :
    decodePsbt fromPSBT s = emptyParsedPsbt ∧
    (decodePsbt fromPSBT s).outputs = [] ∧
    (decodePsbt fromPSBT s).depositAddress = none ∧
    (decodePsbt fromPSBT s).refundAddress = none ∧
    (decodePsbt fromPSBT s).depositAmount = 0 ∧
    (decodePsbt fromPSBT s).refundAmount = 0 ∧
    (decodePsbt fromPSBT s).memo = none := by
  have hempty : decodePsbt fromPSBT s = emptyParsedPsbt := by
    rcases h with ⟨e, he⟩ | ⟨bs, e, hbs, he⟩
    · simp [decodePsbt, decodePsbtBody, he, Bind.bind, Except.bind]
    · simp [decodePsbt, decodePsbtBody, he, hbs, Bind.bind, Except.bind]
  refine ⟨hempty, ?_, ?_, ?_, ?_, ?_, ?_⟩ <;> rw [hempty] <;> rfl

/-- Witness for C8 on concrete garbage input. -/
theorem decodePsbt_malformed_yields_empty_witness :
    decodePsbt (fun _ => Except.error "parse failure") "zz" = emptyParsedPsbt :=
  (decodePsbt_malformed_yields_empty (fun _ => Except.error "parse failure") "zz"
    (Or.inl ⟨"invalid character in hex string", by decide⟩)).1

/- ### C3 : normalized quotes keep toAmountMin ≤ toAmount -/

/-- C3: whenever the external quote and routes responses are well-formed
    (each quote estimate and each route satisfies `toAmountMin ≤ toAmount`),
    every quote returned by `getBtcToEvmQuoteSmart` — on the single-hop or the
    multi-step path — satisfies `toAmountMin ≤ toAmount`. -/
theorem quoteSmart_toAmountMin_le_toAmount
    (api : LifiApi) (params : GetBtcToEvmQuoteParams)
    (hq : ∀ q qq, api.quote q = .ok qq →
      qq.estimate.toAmountMin ≤ qq.estimate.toAmount)
    (hr : ∀ body rr rs r, api.advancedRoutes body = .ok rr →
      rr.routes = some rs → r ∈ rs → r.toAmountMin ≤ r.toAmount)
    (q : LifiQuoteResponse)
    (hres : (getBtcToEvmQuoteSmart api params).1 = .ok q) :
    q.estimate.toAmountMin ≤ q.estimate.toAmount := by
  by_cases h13 : params.toChainId == HYPERLIQUID_CHAIN_ID
  · rcases hadv : api.advancedRoutes (advancedRoutesBody params) with e | rr
    · simp [getBtcToEvmQuoteSmart, h13, hadv] at hres
    · rcases hrs : rr.routes with _ | rs
      · simp [getBtcToEvmQuoteSmart, h13, hadv, hrs] at hres
      · rcases rs with _ | ⟨route, rtl⟩
        · simp [getBtcToEvmQuoteSmart, h13, hadv, hrs] at hres
        · have hroute : route.toAmountMin ≤ route.toAmount :=
            hr _ rr (route :: rtl) route hadv hrs (List.mem_cons_self route rtl)
          rcases hsteps : route.steps with _ | ⟨s0, stl⟩
          · simp [getBtcToEvmQuoteSmart, h13, hadv, hrs, hsteps] at hres
          · rcases htx : s0.transactionRequest with _ | tx
            · rcases hstep : api.stepTransaction s0 with e | s'
              · simp [getBtcToEvmQuoteSmart, h13, hadv, hrs, hsteps, htx, hstep] at hres
              · rcases htx' : s'.transactionRequest with _ | tx'
                · simp [getBtcToEvmQuoteSmart, synthQuote, h13, hadv, hrs, hsteps,
                    htx, hstep, htx'] at hres
                · simp [getBtcToEvmQuoteSmart, synthQuote, h13, hadv, hrs, hsteps,
                    htx, hstep, htx'] at hres
                  rw [← hres]
                  exact hroute
            · simp [getBtcToEvmQuoteSmart, synthQuote, h13, hadv, hrs, hsteps, htx] at hres
              rw [← hres]
              exact hroute
  · rcases hqq : api.quote (quoteQuery params) with e | qq
    · simp [getBtcToEvmQuoteSmart, getBtcToEvmQuote, Except.mapError, h13, hqq] at hres
    · simp [getBtcToEvmQuoteSmart, getBtcToEvmQuote, Except.mapError, h13, hqq] at hres
      rw [← hres]
      exact hq (quoteQuery params) qq hqq

/-- Witness for C3 on a concrete single-hop run. -/
theorem quoteSmart_toAmountMin_le_toAmount_witness :
    sampleQuote.estimate.toAmountMin ≤ sampleQuote.estimate.toAmount :=
  quoteSmart_toAmountMin_le_toAmount sampleQuoteApi sampleParams
    (by intro qy qq hqq
        simp only [sampleQuoteApi, Except.ok.injEq] at hqq
        rw [← hqq]
        decide)
    (by intro body rr rs r hrr
        simp [sampleQuoteApi] at hrr)
    sampleQuote rfl

/- ### C4 : multi-step quote synthesis -/

/-- C4: on the multi-step path, for a routes response whose first route has a
    first step that carries (or obtains via one stepTransaction round trip) a
    transaction request, the synthesized quote takes `tool`, `toolDetails` and
    `action` from the route's first step, takes `toAmount`, `toAmountMin`,
    `toAmountUSD` and the destination token and chain from the route's own
    final totals, and sets `executionDuration` to the sum of
    `executionDuration` over all steps of the route. -/
theorem quoteSmart_multistep_synthesis
    (api : LifiApi) (params : GetBtcToEvmQuoteParams)
    (rr : LifiAdvancedRoutesResponse) (route : LifiRoute) (rtl : List LifiRoute)
    (s0 : LifiRouteStep) (stl : List LifiRouteStep)
    (h13 : params.toChainId = HYPERLIQUID_CHAIN_ID)
    (hadv : api.advancedRoutes (advancedRoutesBody params) = .ok rr)
    (hroutes : rr.routes = some (route :: rtl))
    (hsteps : route.steps = s0 :: stl)
    (q : LifiQuoteResponse)
    (hres : (getBtcToEvmQuoteSmart api params).1 = .ok q) :
    q.tool = s0.tool ∧ q.toolDetails = s0.toolDetails ∧
    q.action = { s0.action with
                 toToken := route.toToken
                 toChainId := route.toChainId } ∧
    q.estimate.toAmount = route.toAmount ∧
    q.estimate.toAmountMin = route.toAmountMin ∧
    q.estimate.toAmountUSD = some route.toAmountUSD ∧
    q.action.toToken = route.toToken ∧
    q.action.toChainId = route.toChainId ∧
    q.estimate.executionDuration =
      (route.steps.map (fun s => s.estimate.executionDuration)).sum := by
  have h13' : (params.toChainId == HYPERLIQUID_CHAIN_ID) = true := by simp [h13]
  rcases htx : s0.transactionRequest with _ | tx
  · rcases hstep : api.stepTransaction s0 with e | s'
    · simp [getBtcToEvmQuoteSmart, h13', hadv, hroutes, hsteps, htx, hstep] at hres
    · rcases htx' : s'.transactionRequest with _ | tx'
      · simp [getBtcToEvmQuoteSmart, synthQuote, h13', hadv, hroutes, hsteps,
          htx, hstep, htx'] at hres
      · simp [getBtcToEvmQuoteSmart, synthQuote, h13', hadv, hroutes, hsteps,
          htx, hstep, htx'] at hres
        rw [← hres]
        refine ⟨rfl, rfl, rfl, rfl, rfl, rfl, rfl, rfl, ?_⟩
        rw [hsteps, foldl_add_executionDuration]
        simp
  · simp [getBtcToEvmQuoteSmart, synthQuote, h13', hadv, hroutes, hsteps, htx] at hres
    rw [← hres]
    refine ⟨rfl, rfl, rfl, rfl, rfl, rfl, rfl, rfl, ?_⟩
    rw [hsteps, foldl_add_executionDuration]
    simp

/-- Witness for C4 on a concrete two-step route. -/
theorem quoteSmart_multistep_synthesis_witness :
    sampleSynthesizedQuote.tool = sampleStep1.tool ∧
    sampleSynthesizedQuote.toolDetails = sampleStep1.toolDetails ∧
    sampleSynthesizedQuote.action =
      { sampleStep1.action with
        toToken := sampleRoute.toToken
        toChainId := sampleRoute.toChainId } ∧
    sampleSynthesizedQuote.estimate.toAmount = sampleRoute.toAmount ∧
    sampleSynthesizedQuote.estimate.toAmountMin = sampleRoute.toAmountMin ∧
    sampleSynthesizedQuote.estimate.toAmountUSD = some sampleRoute.toAmountUSD ∧
    sampleSynthesizedQuote.action.toToken = sampleRoute.toToken ∧
    sampleSynthesizedQuote.action.toChainId = sampleRoute.toChainId ∧
    sampleSynthesizedQuote.estimate.executionDuration =
      (sampleRoute.steps.map (fun s => s.estimate.executionDuration)).sum :=
  quoteSmart_multistep_synthesis sampleRoutesApi sampleParamsHL
    { routes := some [sampleRoute] } sampleRoute [] sampleStep1 [sampleStep2]
    rfl rfl rfl rfl sampleSynthesizedQuote rfl

/- ### C5 : endpoint selection and NoRouteAvailable -/

/-- C5: `getBtcToEvmQuoteSmart` calls the advanced-routes endpoint exactly when
    `toChainId` is the Hyperliquid chain id 1337; on that path a response with
    zero routes (absent or empty list) fails with the NoRouteAvailable error
    (404); for every other `toChainId` the call list is exactly one direct
    /quote call carrying the same parameters, and the result is that call's. -/
theorem quoteSmart_endpoint_selection (api : LifiApi) (params : GetBtcToEvmQuoteParams) :
    (params.toChainId ≠ HYPERLIQUID_CHAIN_ID →
      (getBtcToEvmQuoteSmart api params).2 = [.quote (quoteQuery params)] ∧
      (getBtcToEvmQuoteSmart api params).1 =
        (api.quote (quoteQuery params)).mapError .api) ∧
    (params.toChainId = HYPERLIQUID_CHAIN_ID →
      (getBtcToEvmQuoteSmart api params).2.head? =
        some (.advancedRoutes (advancedRoutesBody params)) ∧
      (∀ rr, api.advancedRoutes (advancedRoutesBody params) = .ok rr →
        rr.routes = none ∨ rr.routes = some [] →
        (getBtcToEvmQuoteSmart api params).1 =
          .error (.api { message := "No available routes for BTC to Hyperliquid",
                         statusCode := some 404 }))) := by
  constructor
  · intro hne
    have h13 : (params.toChainId == HYPERLIQUID_CHAIN_ID) = false := by simp [hne]
    exact ⟨by simp [getBtcToEvmQuoteSmart, getBtcToEvmQuote, h13],
           by simp [getBtcToEvmQuoteSmart, getBtcToEvmQuote, h13]⟩
  · intro heq
    have h13 : (params.toChainId == HYPERLIQUID_CHAIN_ID) = true := by simp [heq]
    constructor
    · rcases hadv : api.advancedRoutes (advancedRoutesBody params) with e | rr
      · simp [getBtcToEvmQuoteSmart, h13, hadv]
      · rcases hrs : rr.routes with _ | rs
        · simp [getBtcToEvmQuoteSmart, h13, hadv, hrs]
        · rcases rs with _ | ⟨route, rtl⟩
          · simp [getBtcToEvmQuoteSmart, h13, hadv, hrs]
          · rcases hsteps : route.steps with _ | ⟨s0, stl⟩
            · simp [getBtcToEvmQuoteSmart, h13, hadv, hrs, hsteps]
            · rcases htx : s0.transactionRequest with _ | tx
              · rcases hstep : api.stepTransaction s0 with e | s' <;>
                  simp [getBtcToEvmQuoteSmart, h13, hadv, hrs, hsteps, htx, hstep]
              · simp [getBtcToEvmQuoteSmart, h13, hadv, hrs, hsteps, htx]
    · intro rr hadv hzero
      rcases hzero with hz | hz <;> simp [getBtcToEvmQuoteSmart, h13, hadv, hz]

/-- Witness for C5: a zero-route multi-step run fails with NoRouteAvailable,
    and a single-hop run issues exactly the one direct quote call. -/
theorem quoteSmart_endpoint_selection_witness :
    (getBtcToEvmQuoteSmart sampleEmptyRoutesApi sampleParamsHL).1 =
      .error (.api { message := "No available routes for BTC to Hyperliquid",
                     statusCode := some 404 }) ∧
    (getBtcToEvmQuoteSmart sampleQuoteApi sampleParams).2 =
      [.quote (quoteQuery sampleParams)] :=
  ⟨((quoteSmart_endpoint_selection sampleEmptyRoutesApi sampleParamsHL).2 rfl).2
      { routes := some [] } rfl (Or.inr rfl),
   ((quoteSmart_endpoint_selection sampleQuoteApi sampleParams).1 (by decide)).1⟩

/-- Running the retry loop while the stored access token is not truthy: every
    remaining attempt throws AuthRequired before any fetch, the loop sleeps
    through its backoff schedule, and the final error is AuthRequired. -/
theorem pearLoop_no_token (fetchO : Nat → FetchOutcome) (refreshO : Nat → RefreshOutcome) :
    ∀ fuel attempt lastError (st : RunState),
      truthy st.session.pearAccessToken = false →
      0 < fuel →
      attempt + fuel = MAX_RETRIES →
      pearLoop true fetchO refreshO fuel attempt lastError st =
        (.error (.apiExc "Authentication required" 401),
         { st with attemptsStarted := st.attemptsStarted + fuel,
                   sleeps := st.sleeps ++
                     (List.range (fuel - 1)).map
                       (fun i => RETRY_DELAY_BASE * 2 ^ (attempt + i)) }) := by
  intro fuel
  induction fuel with
  | zero =>
    intro attempt lastError st h hpos hinv
    omega
  | succ n ih =>
    intro attempt lastError st h hpos hinv
    have hA : attemptOnce true fetchO refreshO
        { st with attemptsStarted := st.attemptsStarted + 1 } =
        (.error (.apiExc "Authentication required" 401),
         { st with attemptsStarted := st.attemptsStarted + 1 }) :=
      attemptOnce_no_token fetchO refreshO _ h
    rw [pearLoop_succ_error true fetchO refreshO n attempt lastError st _ _ hA]
    rw [if_neg (by decide)]
    by_cases hlt : attempt < MAX_RETRIES - 1
    · rw [if_pos hlt]
      have hn : 0 < n := by
        simp only [MAX_RETRIES] at hlt hinv
        omega
      refine (ih (attempt + 1) (some (.apiExc "Authentication required" 401)) _ ?_ hn
        ?_).trans ?_
      · exact h
      · simp only [MAX_RETRIES] at hinv ⊢
        omega
      simp only [Prod.mk.injEq, RunState.mk.injEq, true_and, and_true]
      refine ⟨by omega, ?_⟩
      obtain ⟨n1, rfl⟩ : ∃ n1, n = n1 + 1 := ⟨n - 1, by omega⟩
      simp only [Nat.add_sub_cancel]
      rw [List.append_assoc]
      congr 1
      simpa using backoff_range_shift RETRY_DELAY_BASE attempt n1
    · rw [if_neg hlt]
      have hn0 : n = 0 := by
        simp only [MAX_RETRIES] at hlt hinv
        omega
      subst hn0
      simp only [pearLoop, Option.getD]
      simp

/- ### C1 : 401 refresh-and-retry behavior -/

/-- C1 counterexample: with a stored session, a first 401 response and a
    failing refresh, the session is cleared but the request does not fail with
    the SessionExpired error — the internal SessionExpired exception carries
    status 401 so the loop swallows it, the remaining attempts throw
    AuthRequired before any fetch, and the surfaced error is AuthRequired. -/
theorem pearApiRequest_sessionExpired_counterexample :
    pearApiRequest true (fun _ => FetchOutcome.resp 401 "Unauthorized")
      (fun _ => RefreshOutcome.failure)
      { pearAccessToken := some "tok", pearRefreshToken := some "ref" } =
      (.error (.apiExc "Authentication required" 401),
       { session := resetSession, fetchCalls := 1, refreshCalls := 1,
         attemptsStarted := 3, sleeps := [1000, 2000] }) ∧
    (pearApiRequest true (fun _ => FetchOutcome.resp 401 "Unauthorized")
      (fun _ => RefreshOutcome.failure)
      { pearAccessToken := some "tok", pearRefreshToken := some "ref" }).1 ≠
      .error (.apiExc "Session expired. Please reconnect." 401) := by
  decide

/-- C1 as amended: for an authenticated request whose first response is 401
    while truthy access and refresh tokens are stored, exactly one refresh
    call occurs and the original request is retried at most once with the new
    token.  If the refresh fails, no retry happens, the session is cleared and
    the request fails — after exhausting all 3 attempts (two backoff sleeps)
    — with the AuthRequired 401 error, not SessionExpired.  If the refresh
    succeeds but the retry gets another 401, the session is likewise cleared
    and the same AuthRequired error surfaces after 3 attempts.  If the retry
    succeeds, the request returns on the first loop iteration with exactly
    two fetches and one refresh.  In no case is there an unbounded retry
    loop. -/
theorem pearApiRequest_refresh_once (fetchO : Nat → FetchOutcome)
    (refreshO : Nat → RefreshOutcome) (session : PearSession) (m : String)
    (hacc : truthy session.pearAccessToken = true)
    (href : truthy session.pearRefreshToken = true)
    (h0 : fetchO 0 = .resp 401 m) :
    (refreshO 0 = .failure →
       pearApiRequest true fetchO refreshO session =
         (.error (.apiExc "Authentication required" 401),
          { session := resetSession, fetchCalls := 1, refreshCalls := 1,
            attemptsStarted := 3,
            sleeps := [RETRY_DELAY_BASE, RETRY_DELAY_BASE * 2] })) ∧
    (∀ a r m2, refreshO 0 = .success a r → truthy (some a) = true →
       fetchO 1 = .resp 401 m2 →
       pearApiRequest true fetchO refreshO session =
         (.error (.apiExc "Authentication required" 401),
          { session := resetSession, fetchCalls := 2, refreshCalls := 1,
            attemptsStarted := 3,
            sleeps := [RETRY_DELAY_BASE, RETRY_DELAY_BASE * 2] })) ∧
    (∀ a r s2 m2, refreshO 0 = .success a r → truthy (some a) = true →
       fetchO 1 = .resp s2 m2 → respOk s2 = true →
       pearApiRequest true fetchO refreshO session =
         (.ok (), { session := { pearAccessToken := some a, pearRefreshToken := some r },
                    fetchCalls := 2, refreshCalls := 1, attemptsStarted := 1,
                    sleeps := [] })) := by
  obtain ⟨tok, rtok⟩ := session
  refine ⟨fun hrf => ?_, fun a r m2 hrf ha h1 => ?_, fun a r s2 m2 hrf ha h1 hok => ?_⟩
  · have hA : attemptOnce true fetchO refreshO
        { session := ⟨tok, rtok⟩, fetchCalls := 0, refreshCalls := 0,
          attemptsStarted := 1, sleeps := [] } =
        (.error (.apiExc "Session expired. Please reconnect." 401),
         { session := resetSession, fetchCalls := 1, refreshCalls := 1,
           attemptsStarted := 1, sleeps := [] }) := by
      simp [attemptOnce, hacc, href, h0, hrf]
    refine (pearLoop_succ_error true fetchO refreshO 2 0 none _ _ _ hA).trans ?_
    rw [if_neg (by decide), if_pos (by decide)]
    refine (pearLoop_no_token fetchO refreshO 2 1 _ _ (by decide) (by decide)
      (by decide)).trans ?_
    decide
  · have hA : attemptOnce true fetchO refreshO
        { session := ⟨tok, rtok⟩, fetchCalls := 0, refreshCalls := 0,
          attemptsStarted := 1, sleeps := [] } =
        (.error (.apiExc "Session expired. Please reconnect." 401),
         { session := resetSession, fetchCalls := 2, refreshCalls := 1,
           attemptsStarted := 1, sleeps := [] }) := by
      simp [attemptOnce, hacc, href, h0, hrf, ha, h1, respOk]
    refine (pearLoop_succ_error true fetchO refreshO 2 0 none _ _ _ hA).trans ?_
    rw [if_neg (by decide), if_pos (by decide)]
    refine (pearLoop_no_token fetchO refreshO 2 1 _ _ (by decide) (by decide)
      (by decide)).trans ?_
    decide
  · have hA : attemptOnce true fetchO refreshO
        { session := ⟨tok, rtok⟩, fetchCalls := 0, refreshCalls := 0,
          attemptsStarted := 1, sleeps := [] } =
        (.ok (), { session := { pearAccessToken := some a, pearRefreshToken := some r },
                   fetchCalls := 2, refreshCalls := 1, attemptsStarted := 1,
                   sleeps := [] }) := by
      simp [attemptOnce, hacc, href, h0, hrf, ha, h1, hok]
    exact pearLoop_succ_ok true fetchO refreshO 2 0 none _ _ () hA

/-- Witness for C1 (amended): a concrete 401-refresh-retry-success run. -/
theorem pearApiRequest_refresh_once_witness :
    pearApiRequest true
      (fun n => if n == 0 then FetchOutcome.resp 401 "Unauthorized"
                else FetchOutcome.resp 200 "")
      (fun _ => RefreshOutcome.success "newTok" "newRef")
      { pearAccessToken := some "tok", pearRefreshToken := some "ref" } =
      (.ok (), { session := { pearAccessToken := some "newTok",
                              pearRefreshToken := some "newRef" },
                 fetchCalls := 2, refreshCalls := 1, attemptsStarted := 1,
                 sleeps := [] }) :=
  (pearApiRequest_refresh_once
    (fun n => if n == 0 then FetchOutcome.resp 401 "Unauthorized"
              else FetchOutcome.resp 200 "")
    (fun _ => RefreshOutcome.success "newTok" "newRef")
    { pearAccessToken := some "tok", pearRefreshToken := some "ref" }
    "Unauthorized" (by decide) (by decide) (by decide)).2.2
    "newTok" "newRef" 200 "" (by decide) (by decide) (by decide) (by decide)

/- ### C2 : authenticated request without a stored token -/

/-- C2 counterexample: with `requireAuth` and no stored token, the request
    does fail with the AuthRequired error and no fetch is ever issued, but
    not immediately — the AuthRequired exception has status 401, so the loop
    retries it: 3 attempts start and two backoff sleeps (1000ms, 2000ms)
    happen before the failure surfaces. -/
theorem pearApiRequest_no_token_counterexample :
    pearApiRequest true (fun _ => FetchOutcome.resp 200 "")
      (fun _ => RefreshOutcome.failure) resetSession =
      (.error (.apiExc "Authentication required" 401),
       { session := resetSession, fetchCalls := 0, refreshCalls := 0,
         attemptsStarted := 3, sleeps := [1000, 2000] }) ∧
    (pearApiRequest true (fun _ => FetchOutcome.resp 200 "")
      (fun _ => RefreshOutcome.failure) resetSession).2.sleeps ≠ [] ∧
    (pearApiRequest true (fun _ => FetchOutcome.resp 200 "")
      (fun _ => RefreshOutcome.failure) resetSession).2.attemptsStarted ≠ 1 ∧
    (pearApiRequest true (fun _ => FetchOutcome.resp 200 "")
      (fun _ => RefreshOutcome.failure) resetSession).2.fetchCalls = 0 := by
  decide

/-- C2 as amended: with `requireAuth` true and no truthy access token stored,
    no fetch and no refresh call is ever issued and the request fails with
    the AuthRequired 401 error — but only after all 3 attempts start and the
    two backoff sleeps run, because the 401-status exception is retried
    rather than propagated immediately. -/
theorem pearApiRequest_no_token_behavior (fetchO : Nat → FetchOutcome)
    (refreshO : Nat → RefreshOutcome) (session : PearSession)
    (h : truthy session.pearAccessToken = false) :
    pearApiRequest true fetchO refreshO session =
      (.error (.apiExc "Authentication required" 401),
       { session := session, fetchCalls := 0, refreshCalls := 0,
         attemptsStarted := 3,
         sleeps := [RETRY_DELAY_BASE, RETRY_DELAY_BASE * 2] }) := by
  exact (pearLoop_no_token fetchO refreshO 3 0 none (initRunState session) h
    (by decide) (by decide)).trans rfl

/-- Witness for C2 (amended) at a concrete empty session. -/
theorem pearApiRequest_no_token_behavior_witness :
    pearApiRequest true (fun _ => FetchOutcome.resp 200 "")
      (fun _ => RefreshOutcome.failure)
      { pearAccessToken := none, pearRefreshToken := none } =
      (.error (.apiExc "Authentication required" 401),
       { session := { pearAccessToken := none, pearRefreshToken := none },
         fetchCalls := 0, refreshCalls := 0, attemptsStarted := 3,
         sleeps := [RETRY_DELAY_BASE, RETRY_DELAY_BASE * 2] }) :=
  pearApiRequest_no_token_behavior (fun _ => FetchOutcome.resp 200 "")
    (fun _ => RefreshOutcome.failure)
    { pearAccessToken := none, pearRefreshToken := none } (by decide)
